import Mathlib

/-!
Shallow embedding of the `sectxt` security.txt parser
(`src/sectxt/__init__.py`, class `Parser`) and proofs of the frozen
claims about it.

External collaborators of the core (dateutil parsing, langcodes tag
validity, the pgpy armored-blob check, and the wall clock) are modelled
as an explicit `Oracles` record passed through the functions that call
them; everything the core itself computes (string trimming, splitting,
the ISO-8601 regular expression, URL scheme extraction) is implemented
here from the source.
-/

namespace Sectxt

/-- ASCII whitespace as stripped by Python `str.strip` / `rstrip` /
`lstrip` (the inputs handled here are ASCII; the full Python set also
holds further Unicode space characters). -/
def isPySpace (c : Char) : Bool :=
  c == ' ' || c == '\t' || c == '\n' || c == '\r' || c == '\x0b' || c == '\x0c'

/-- Python `str.rstrip()`. -/
def pyRstrip (s : String) : String :=
  String.mk ((s.toList.reverse.dropWhile isPySpace).reverse)

/-- Python `str.lstrip()`. -/
def pyLstrip (s : String) : String :=
  String.mk (s.toList.dropWhile isPySpace)

/-- Python `str.strip()`. -/
def pyStrip (s : String) : String := pyLstrip (pyRstrip s)

/-- Does the character list start with the given pattern
(Python `str.startswith`)? -/
def listStarts : List Char → List Char → Bool
  | _, [] => true
  | [], _ :: _ => false
  | c :: cs, p :: ps => c == p && listStarts cs ps

/-- Python `s.startswith(p)`. -/
def strStarts (s p : String) : Bool := listStarts s.toList p.toList

/-- Python `s.endswith(p)`. -/
def strEnds (s p : String) : Bool := listStarts s.toList.reverse p.toList.reverse

/-- Split at the first occurrence of a colon, if any
(the shape behind Python `line.split(":", 1)` and `url.find(":")`). -/
def splitAtColonOpt : List Char → Option (List Char × List Char)
  | [] => none
  | c :: cs =>
    if c == ':' then some ([], cs)
    else
      match splitAtColonOpt cs with
      | none => none
      | some p => some (c :: p.1, p.2)

/-- Python `line.split(":", 1)` under the caller's guarantee that the
line contains a colon (the classifier only calls the field routine on
lines containing `:`). -/
def splitAtColon (cs : List Char) : List Char × List Char :=
  match splitAtColonOpt cs with
  | none => (cs, [])
  | some p => p

/-- Accumulator-based worker for `pySplitChar`. -/
def splitCharAux (sep : Char) : List Char → List Char → List String
  | [], acc => [String.mk acc.reverse]
  | c :: cs, acc =>
    if c == sep then String.mk acc.reverse :: splitCharAux sep cs []
    else splitCharAux sep cs (c :: acc)

/-- Python `s.split(sep)` for a one-character separator: `""` splits to
`[""]`, and a trailing separator yields a final empty element. -/
def pySplitChar (sep : Char) (s : String) : List String :=
  splitCharAux sep s.toList []

/-- Python `content.split("\n")` as used by `Parser._process`. -/
def pySplitLines (s : String) : List String := pySplitChar '\n' s

/-- A character allowed in a URL scheme by `urllib.parse`
(letters, digits, `+`, `-`, `.`). -/
def schemeChar (c : Char) : Bool :=
  c.isAlpha || c.isDigit || c == '+' || c == '-' || c == '.'

/-- The `scheme` component produced by `urllib.parse.urlsplit`: the text
before the first colon, lower-cased, provided it is non-empty, starts
with an ASCII letter and consists of scheme characters; otherwise `""`. -/
def urlScheme (url : String) : String :=
  match splitAtColonOpt url.toList with
  | none => ""
  | some p =>
    match p.1 with
    | [] => ""
    | c :: _ =>
      if c.isAlpha && p.1.all schemeChar then String.mk (p.1.map Char.toLower)
      else ""

/-- Consume exactly `n` ASCII digits (`\d{n}` under `re.ASCII`). -/
def matchDigits : Nat → List Char → Option (List Char)
  | 0, cs => some cs
  | _ + 1, [] => none
  | n + 1, c :: cs => if c.isDigit then matchDigits n cs else none

/-- Consume one expected character. -/
def matchChar (c : Char) : List Char → Option (List Char)
  | [] => none
  | d :: cs => if d == c then some cs else none

/-- The regex anchor `$` (without `re.MULTILINE`): end of input, or just
before a final newline. -/
def atEnd : List Char → Bool
  | [] => true
  | ['\n'] => true
  | _ => false

/-- The zone part `(Z|[-+]\d{2}:\d{2})$` of `Parser.iso8601_re`
(case-insensitive, so `z` also matches). -/
def matchZone (cs : List Char) : Bool :=
  match cs with
  | [] => false
  | c :: rest =>
    if c == 'Z' || c == 'z' then atEnd rest
    else if c == '+' || c == '-' then
      match matchDigits 2 rest with
      | some (':' :: rest2) =>
        match matchDigits 2 rest2 with
        | some rest3 => atEnd rest3
        | none => false
      | _ => false
    else false

/-- The optional fraction `(\.\d+)?` followed by the zone: digits are
never a valid zone start, so greedy matching needs no backtracking. -/
def matchFracZone (cs : List Char) : Bool :=
  match cs with
  | '.' :: rest =>
    match rest with
    | [] => false
    | c :: _ => if c.isDigit then matchZone (rest.dropWhile Char.isDigit) else false
  | _ => matchZone cs

/-- The date part `\d{4}-\d{2}-\d{2}`. -/
def matchDatePart (cs : List Char) : Option (List Char) :=
  (matchDigits 4 cs).bind fun cs1 =>
  (matchChar '-' cs1).bind fun cs2 =>
  (matchDigits 2 cs2).bind fun cs3 =>
  (matchChar '-' cs3).bind fun cs4 =>
  matchDigits 2 cs4

/-- The separator `[T ]`, case-insensitive. -/
def matchSep : List Char → Option (List Char)
  | [] => none
  | c :: cs => if c == 'T' || c == 't' || c == ' ' then some cs else none

/-- The time part `\d{2}:\d{2}:\d{2}`. -/
def matchTimePart (cs : List Char) : Option (List Char) :=
  (matchDigits 2 cs).bind fun cs1 =>
  (matchChar ':' cs1).bind fun cs2 =>
  (matchDigits 2 cs2).bind fun cs3 =>
  (matchChar ':' cs3).bind fun cs4 =>
  matchDigits 2 cs4

/-- `Parser.iso8601_re.match(value)` viewed as a Boolean: the anchored
pattern
`\d{4}-\d{2}-\d{2}[T ]\d{2}:\d{2}:\d{2}(\.\d+)?(Z|[-+]\d{2}:\d{2})$`
compiled with `re.IGNORECASE | re.ASCII`. -/
def iso8601Match (s : String) : Bool :=
  match (matchDatePart s.toList).bind (fun cs => (matchSep cs).bind matchTimePart) with
  | some cs => matchFracZone cs
  | none => false

/-- Outcome of `pgpy.PGPMessage.from_blob` as observed by the `try`
block in `Parser._parse_line`: success, `ValueError`, or `PGPError`. -/
inductive PgpResult where
  | ok : PgpResult
  | valueError : PgpResult
  | pgpError : PgpResult
deriving DecidableEq

/-- The delegated capabilities the core calls but does not implement:
`dateutil.parser.parse` (`none` = `ParserError`; parsed timestamps are
modelled as integers ordered like datetimes), the current time `now`
(`datetime.now(timezone.utc)`), its value one year later
(`now.replace(year=now.year + 1)`), `langcodes.tag_is_valid`, and the
pgpy armored-blob check applied to the whole document. -/
structure Oracles where
  dparse : String → Option Int
  now : Int
  maxValue : Int
  tagValid : String → Bool
  pgpBlob : String → PgpResult

/-- The `ErrorDict` TypedDict: a diagnostic record. -/
structure ErrRec where
  code : String
  message : String
  line : Option Nat
deriving DecidableEq

/-- The `LineDict` TypedDict: one classified line. -/
structure LineRec where
  type : String
  field_name : Option String
  value : String
deriving DecidableEq

/-- The mutable state of a `Parser` run: the fields set in
`Parser.__init__` that the line pass and the cross-field pass read and
write.  The `defaultdict(list)` `_values` is modelled as the ordered
list of `(key, value)` insertions; `getVals` recovers the per-key list. -/
structure PState where
  line_info : List LineRec
  errors : List ErrRec
  recommendations : List ErrRec
  notifications : List ErrRec
  values : List (String × String)
  langs : Option (List String)
  expires_date : Option Int
  signed : Bool
  reading_sig : Bool
  finished_sig : Bool
  line_no : Option Nat

/-- The list `self._values[key]` (empty when the key is absent;
`key in self._values` is equivalent to this list being non-empty, since
every insertion appends a value). -/
def getVals (s : PState) (key : String) : List String :=
  (s.values.filter (fun p => p.1 == key)).map Prod.snd

/-- The state right after `Parser.__init__` initialises its fields. -/
def initState : PState :=
  { line_info := [], errors := [], recommendations := [], notifications := []
  , values := [], langs := none, expires_date := none
  , signed := false, reading_sig := false, finished_sig := false, line_no := none }

/-- `Parser._add_error` with its `explicit_line_no` argument: Python
truthiness makes `None` and `0` fall back to `self._line_no`. -/
def addErrorAt (s : PState) (code message : String) (explicit_line_no : Option Nat) : PState :=
  { s with errors := s.errors ++
      [{ code := code, message := message
       , line := match explicit_line_no with
                 | some n => if n ≠ 0 then some n else s.line_no
                 | none => s.line_no }] }

/-- `Parser._add_error` without an explicit line number. -/
def addError (s : PState) (code message : String) : PState :=
  addErrorAt s code message none

/-- `Parser._add_recommendation`. -/
def addRecommendation (s : PState) (code message : String) : PState :=
  { s with recommendations := s.recommendations ++
      [{ code := code, message := message, line := s.line_no }] }

/-- `Parser._add_notification`. -/
def addNotification (s : PState) (code message : String) : PState :=
  { s with notifications := s.notifications ++
      [{ code := code, message := message, line := s.line_no }] }

def PREFERRED_LANGUAGES : String := "preferred-languages"

/-- `Parser.uri_fields`. -/
def uriFields : List String :=
  ["acknowledgments", "canonical", "contact", "encryption", "hiring", "policy", "csaf"]

/-- `Parser.known_fields`. -/
def knownFields : List String := uriFields ++ [PREFERRED_LANGUAGES, "expires"]

def invalidExpiryMsg : String :=
  "Date and time in 'Expires' field must be formatted according to ISO 8601."

def longExpiryMsg : String :=
  "Date and time in 'Expires' field should be less than a year into the future."

def expiredMsg : String :=
  "Date and time in 'Expires' field must not be in the past."

def precWsMsg : String :=
  "There must be no whitespace before the field separator (colon)."

def noSpaceMsg : String :=
  "Field separator (colon) must be followed by a space."

def emptyKeyMsg : String := "Field name must not be empty."

def emptyValueMsg : String := "Field value must not be empty."

def noHttpsMsg : String := "Web URI must begin with 'https://'."

def invalidLangMsg : String :=
  "Value in 'Preferred-Languages' field must match one or more language tags as defined in RFC5646, separated by commas."

def unknownFieldMsg (key : String) : String :=
  "security.txt contains an unknown field. Field \"" ++ key ++
  "\" is either a custom field which may not be widely supported, or there is a typo in a standardised field name."

def dataAfterSigMsg : String :=
  "Signed security.txt must not contain data after the signature."

def signedFormatMsg : String :=
  "Signed security.txt must start with the header '-----BEGIN PGP SIGNED MESSAGE-----'."

def pgpDataErrMsg : String :=
  "Signed message did not contain a correct ASCII-armored PGP block."

def pgpErrMsg : String := "Decoding or parsing of the pgp message failed."

def invalidLineMsg : String :=
  "Line must contain a field name and value, unless the line is blank or contains a comment."

/-- `Parser._parse_expires`. -/
def parseExpires (o : Oracles) (value : String) (s : PState) : PState :=
  match o.dparse value with
  | none => addError s "invalid_expiry" invalidExpiryMsg
  | some date_value =>
    let s1 := { s with expires_date := some date_value }
    if iso8601Match value = false then
      addError s1 "invalid_expiry" invalidExpiryMsg
    else if o.maxValue < date_value then
      addRecommendation s1 "long_expiry" longExpiryMsg
    else if date_value < o.now then
      addError s1 "expired" expiredMsg
    else s1

/-- The `for lang in self._langs` loop of `Parser._parse_field`: one
`invalid_lang` error per invalid tag, in order. -/
def checkLangs (o : Oracles) : List String → PState → PState
  | [], t => t
  | lang :: rest, t =>
    checkLangs o rest
      (if o.tagValid lang = false then addError t "invalid_lang" invalidLangMsg else t)

/-- The lower-cased, right-trimmed field name of a colon-containing
line, as computed by `Parser._parse_field` (the trim is a no-op when
`prec_ws` does not fire). -/
def fieldKey (line : String) : String :=
  pyRstrip (String.mk ((splitAtColon line.toList).1.map Char.toLower))

/-- The raw value of a colon-containing line: the text after the first
colon, before left-trimming. -/
def fieldRawValue (line : String) : String :=
  String.mk (splitAtColon line.toList).2

/-- The separator-spacing checks of `Parser._parse_field`: the
`prec_ws` check on the lower-cased name, then the `no_space` check on
the raw value. -/
def fieldSpacing (s : PState) (key0 value0 : String) : PState :=
  let s1 := if pyRstrip key0 ≠ key0 then addError s "prec_ws" precWsMsg else s
  if value0 ≠ "" ∧ value0.toList.head? ≠ some ' ' then addError s1 "no_space" noSpaceMsg else s1

/-- The per-field-name semantic checks of `Parser._parse_field`
(URI shape, expiry date, language tags). -/
def fieldSemantics (o : Oracles) (key value : String) (s2 : PState) : PState :=
  if key ∈ uriFields then
    if urlScheme value = "" then
      addError s2 "no_uri" ("Field '" ++ key ++ "' value must be a URI.")
    else if urlScheme value = "http" then addError s2 "no_https" noHttpsMsg
    else s2
  else if key = "expires" then parseExpires o value s2
  else if key = PREFERRED_LANGUAGES then
    checkLangs o ((pySplitChar ',' value).map pyStrip)
      { s2 with langs := some ((pySplitChar ',' value).map pyStrip) }
  else s2

/-- The tail of `Parser._parse_field` once name and value are known to
be non-empty: semantic checks, the unknown-field notification, the
append to `_values`, and the `field` record. -/
def fieldFinish (o : Oracles) (ruf : Bool) (key value : String) (s2 : PState) :
    PState × LineRec :=
  let s3 := fieldSemantics o key value s2
  let s4 := if ruf = true ∧ key ∉ knownFields then
      addNotification s3 "unknown_field" (unknownFieldMsg key)
    else s3
  ({ s4 with values := s4.values ++ [(key, value)] },
   { type := "field", field_name := some key, value := value })

/-- `Parser._parse_field`.  `ruf` is the `recommend_unknown_fields`
flag.  Python reassigns `key = key.rstrip()` and `value = value.lstrip()`
only inside the corresponding `if` branches; both trims are no-ops in
the other branches, so they are applied unconditionally here. -/
def parseField (o : Oracles) (ruf : Bool) (s : PState) (line : String) : PState × LineRec :=
  let key0 := String.mk ((splitAtColon line.toList).1.map Char.toLower)
  let value0 := String.mk (splitAtColon line.toList).2
  let s2 := fieldSpacing s key0 value0
  let key := pyRstrip key0
  let value := pyLstrip value0
  if key = "hash" ∧ s2.signed = true then
    (s2, { type := "pgp_envelope", field_name := none, value := line })
  else if key = "" then
    (addError s2 "empty_key" emptyKeyMsg, { type := "error", field_name := none, value := line })
  else if value = "" then
    (addError s2 "empty_value" emptyValueMsg, { type := "error", field_name := none, value := line })
  else fieldFinish o ruf key value s2

def beginMsgMarker : String := "-----BEGIN PGP SIGNED MESSAGE-----"

def beginSigMarker : String := "-----BEGIN PGP SIGNATURE-----"

def endSigMarker : String := "-----END PGP SIGNATURE-----"

/-- `Parser._parse_line`.  `content` is the whole document, handed to
the pgp oracle when the signed-message marker is recognised. -/
def parseLine (o : Oracles) (ruf : Bool) (content : String) (s : PState) (line0 : String) :
    PState × LineRec :=
  let line := pyRstrip line0
  if s.reading_sig = true then
    (if line = endSigMarker then { s with reading_sig := false, finished_sig := true } else s,
     { type := "pgp_envelope", field_name := none, value := line })
  else if line ≠ "" ∧ s.finished_sig = true then
    (addError s "data_after_sig" dataAfterSigMsg,
     { type := "error", field_name := none, value := line })
  else
    let line1 := if s.signed = true ∧ s.reading_sig = false ∧ strStarts line "- " = true then
        String.mk (line.toList.drop 2)
      else line
    if line1 = beginMsgMarker then
      let s1 := if s.line_no ≠ some 1 then addError s "signed_format_issue" signedFormatMsg else s
      let s2 := { s1 with signed := true }
      let s3 :=
        match o.pgpBlob content with
        | PgpResult.ok => s2
        | PgpResult.valueError => addError s2 "pgp_data_error" pgpDataErrMsg
        | PgpResult.pgpError => addError s2 "pgp_error" pgpErrMsg
      (s3, { type := "pgp_envelope", field_name := none, value := line1 })
    else if line1 = beginSigMarker ∧ s.signed = true then
      ({ s with reading_sig := true },
       { type := "pgp_envelope", field_name := none, value := line1 })
    else if strStarts line1 "#" = true then
      (s, { type := "comment", field_name := none, value := line1 })
    else if line1.toList.contains ':' = true then
      parseField o ruf s line1
    else if line1 ≠ "" then
      (addError s "invalid_line" invalidLineMsg,
       { type := "error", field_name := none, value := line1 })
    else
      (s, { type := "empty", field_name := none, value := "" })

/-- One iteration of the `for line in lines` loop in `Parser._process`:
classify, append the record, advance the line counter. -/
def stepState (o : Oracles) (ruf : Bool) (content : String) (s : PState) (l : String) : PState :=
  let p := parseLine o ruf content s l
  { p.1 with line_info := p.1.line_info ++ [p.2], line_no := p.1.line_no.map (· + 1) }

/-- The whole `for line in lines` loop. -/
def processLines (o : Oracles) (ruf : Bool) (content : String) : List String → PState → PState
  | [], s => s
  | l :: ls, s => processLines o ruf content ls (stepState o ruf content s l)

/-- The records appended by the line loop, one per input line, threaded
through the same state evolution as `processLines`. -/
def producedRecs (o : Oracles) (ruf : Bool) (content : String) :
    List String → PState → List LineRec
  | [], _ => []
  | l :: ls, s =>
    (parseLine o ruf content s l).2 ::
      producedRecs o ruf content ls (stepState o ruf content s l)

def noExpireMsg : String := "'Expires' field must be present."

def multiExpireMsg : String := "'Expires' field must not appear more than once."

def noCanonicalMatchMsg : String :=
  "Web URI where security.txt is located must match with a 'Canonical' field. In case of redirecting either the first or last web URI of the redirect chain must match."

def noLineSepMsg : String :=
  "Every line, including the last one, must end with either a carriage return and line feed characters or just a line feed character"

def noCsafFileMsg : String := "All CSAF fields must point to a provider-metadata.json file."

def multiCsafMsg : String :=
  "It is allowed to have more than one csaf field, however this should be removed if possible."

def noContactMsg : String := "'Contact' field must appear at least once."

def noEncryptionMsg : String :=
  "'Encryption' field should be present when 'Contact' field contains an email address."

def multiLangMsg : String := "'Preferred-Languages' field must not appear more than once."

def notSignedMsg : String := "security.txt should be digitally signed."

def noCanonicalMsg : String := "'Canonical' field should be present in a signed file."

/-- `Parser.validate_contents`, expires block. -/
def vcExpires (s : PState) : PState :=
  if getVals s "expires" = [] then addError s "no_expire" noExpireMsg
  else if 1 < (getVals s "expires").length then addError s "multi_expire" multiExpireMsg
  else s

/-- `Parser.validate_contents`, canonical-match block (`self._urls` is
falsy when `None` or empty; `"canonical" in self._values` is the
non-emptiness of its value list). -/
def vcCanonicalMatch (urls : Option (List String)) (s : PState) : PState :=
  match urls with
  | none => s
  | some us =>
    if us ≠ [] ∧ getVals s "canonical" ≠ [] then
      if us.all (fun url => !(getVals s "canonical").contains url) then
        addError s "no_canonical_match" noCanonicalMatchMsg
      else s
    else s

/-- `Parser.validate_contents`, final-line block: `self.lines[-1]` must
be of type `empty`, else `no_line_separators` at `len(self.lines)`. -/
def vcLastLine (s : PState) : PState :=
  if s.line_info.getLast?.map (fun r => r.type) ≠ some "empty" then
    addErrorAt s "no_line_separators" noLineSepMsg (some s.line_info.length)
  else s

/-- `Parser.validate_contents`, csaf block. -/
def vcCsaf (s : PState) : PState :=
  if getVals s "csaf" ≠ [] then
    let s1 := if (getVals s "csaf").all (fun v => strEnds v "provider-metadata.json") = false then
        addError s "no_csaf_file" noCsafFileMsg
      else s
    if 1 < (getVals s1 "csaf").length then addRecommendation s1 "multiple_csaf_fields" multiCsafMsg
    else s1
  else s

/-- `Parser.validate_contents`, contact block. -/
def vcContact (s : PState) : PState :=
  if getVals s "contact" = [] then addError s "no_contact" noContactMsg
  else if ((getVals s "contact").any (fun v => strStarts v "mailto:")) = true
      ∧ getVals s "encryption" = [] then
    addRecommendation s "no_encryption" noEncryptionMsg
  else s

/-- `Parser.validate_contents`, preferred-languages block. -/
def vcLangs (s : PState) : PState :=
  if getVals s PREFERRED_LANGUAGES ≠ [] then
    if 1 < (getVals s PREFERRED_LANGUAGES).length then addError s "multi_lang" multiLangMsg
    else s
  else s

/-- `Parser.validate_contents`, signature recommendations. -/
def vcSigned (s : PState) : PState :=
  let s1 := if s.signed = false then addRecommendation s "not_signed" notSignedMsg else s
  if s1.signed = true ∧ getVals s1 "canonical" = [] then
    addRecommendation s1 "no_canonical" noCanonicalMsg
  else s1

/-- `Parser.validate_contents`: the blocks above, in source order. -/
def validateContents (urls : Option (List String)) (s : PState) : PState :=
  vcSigned (vcLangs (vcContact (vcCsaf (vcLastLine (vcCanonicalMatch urls (vcExpires s))))))

/-- The state `Parser._process` starts the loop with: `_line_no = 1`. -/
def startState : PState := { initState with line_no := some 1 }

/-- `Parser.__init__` + `Parser._process` for a given document: split on
line feeds, classify every line in order, reset the line counter, run
the cross-field pass.  `urls` is the already-listified `_urls`. -/
def runParser (o : Oracles) (urls : Option (List String)) (ruf : Bool) (content : String) :
    PState :=
  let s1 := processLines o ruf content (pySplitLines content) startState
  validateContents urls { s1 with line_no := none }

/-- `Parser.is_valid`. -/
def PState.isValid (s : PState) : Bool := s.errors.isEmpty

/-- The `Parser.preferred_languages` property: comma-split,
stripped tokens of the first recorded occurrence. -/
def preferredLanguages (s : PState) : Option (List String) :=
  match getVals s PREFERRED_LANGUAGES with
  | [] => none
  | v :: _ => some ((pySplitChar ',' v).map pyStrip)

/-- A concrete oracle assignment for evaluating the parser on concrete
documents: one recognised timestamp (value `200`, against `now = 0` and
`maxValue = 100`), all language tags valid, and a structurally valid
pgp blob. -/
def testOracles : Oracles :=
  { dparse := fun v => if v = "2031-01-01T00:00:00Z" then some 200 else none
  , now := 0, maxValue := 100
  , tagValid := fun _ => true
  , pgpBlob := fun _ => PgpResult.ok }

/-- A concrete mid-document state whose signature block has finished. -/
def sFin : PState := { initState with finished_sig := true, line_no := some 5 }

/-- A concrete mid-document state inside a signed document (line 2,
after the opening marker). -/
def sSigned : PState := { initState with signed := true, line_no := some 2 }

/-- A concrete state that has recorded two `preferred-languages`
occurrences. -/
def sLangs : PState :=
  { initState with values := [(PREFERRED_LANGUAGES, "en, nl"), (PREFERRED_LANGUAGES, "fr")] }

/-! ### Frame lemmas: which state components each helper leaves alone -/

@[simp] theorem addErrorAt_line_info (s : PState) (c m : String) (ln : Option Nat) :
    (addErrorAt s c m ln).line_info = s.line_info := rfl

@[simp] theorem addErrorAt_line_no (s : PState) (c m : String) (ln : Option Nat) :
    (addErrorAt s c m ln).line_no = s.line_no := rfl

@[simp] theorem addErrorAt_signed (s : PState) (c m : String) (ln : Option Nat) :
    (addErrorAt s c m ln).signed = s.signed := rfl

@[simp] theorem addErrorAt_reading_sig (s : PState) (c m : String) (ln : Option Nat) :
    (addErrorAt s c m ln).reading_sig = s.reading_sig := rfl

@[simp] theorem addErrorAt_finished_sig (s : PState) (c m : String) (ln : Option Nat) :
    (addErrorAt s c m ln).finished_sig = s.finished_sig := rfl

@[simp] theorem addErrorAt_values (s : PState) (c m : String) (ln : Option Nat) :
    (addErrorAt s c m ln).values = s.values := rfl

@[simp] theorem addErrorAt_notifications (s : PState) (c m : String) (ln : Option Nat) :
    (addErrorAt s c m ln).notifications = s.notifications := rfl

@[simp] theorem addErrorAt_recommendations (s : PState) (c m : String) (ln : Option Nat) :
    (addErrorAt s c m ln).recommendations = s.recommendations := rfl

@[simp] theorem addErrorAt_langs (s : PState) (c m : String) (ln : Option Nat) :
    (addErrorAt s c m ln).langs = s.langs := rfl

@[simp] theorem addError_errors (s : PState) (c m : String) :
    (addError s c m).errors = s.errors ++ [{ code := c, message := m, line := s.line_no }] := rfl

theorem addErrorAt_errors_mono (s : PState) (c m : String) (ln : Option Nat)
    (e : ErrRec) (h : e ∈ s.errors) : e ∈ (addErrorAt s c m ln).errors := by
  unfold addErrorAt
  exact List.mem_append_left _ h

@[simp] theorem addError_line_info (s : PState) (c m : String) :
    (addError s c m).line_info = s.line_info := rfl

@[simp] theorem addError_line_no (s : PState) (c m : String) :
    (addError s c m).line_no = s.line_no := rfl

@[simp] theorem addError_signed (s : PState) (c m : String) :
    (addError s c m).signed = s.signed := rfl

@[simp] theorem addError_reading_sig (s : PState) (c m : String) :
    (addError s c m).reading_sig = s.reading_sig := rfl

@[simp] theorem addError_finished_sig (s : PState) (c m : String) :
    (addError s c m).finished_sig = s.finished_sig := rfl

@[simp] theorem addError_values (s : PState) (c m : String) :
    (addError s c m).values = s.values := rfl

@[simp] theorem addError_notifications (s : PState) (c m : String) :
    (addError s c m).notifications = s.notifications := rfl

@[simp] theorem addError_recommendations (s : PState) (c m : String) :
    (addError s c m).recommendations = s.recommendations := rfl

@[simp] theorem addError_langs (s : PState) (c m : String) :
    (addError s c m).langs = s.langs := rfl

@[simp] theorem addRecommendation_line_info (s : PState) (c m : String) :
    (addRecommendation s c m).line_info = s.line_info := rfl

@[simp] theorem addRecommendation_line_no (s : PState) (c m : String) :
    (addRecommendation s c m).line_no = s.line_no := rfl

@[simp] theorem addRecommendation_signed (s : PState) (c m : String) :
    (addRecommendation s c m).signed = s.signed := rfl

@[simp] theorem addRecommendation_reading_sig (s : PState) (c m : String) :
    (addRecommendation s c m).reading_sig = s.reading_sig := rfl

@[simp] theorem addRecommendation_finished_sig (s : PState) (c m : String) :
    (addRecommendation s c m).finished_sig = s.finished_sig := rfl

@[simp] theorem addRecommendation_values (s : PState) (c m : String) :
    (addRecommendation s c m).values = s.values := rfl

@[simp] theorem addRecommendation_errors (s : PState) (c m : String) :
    (addRecommendation s c m).errors = s.errors := rfl

@[simp] theorem addRecommendation_notifications (s : PState) (c m : String) :
    (addRecommendation s c m).notifications = s.notifications := rfl

@[simp] theorem addRecommendation_recommendations (s : PState) (c m : String) :
    (addRecommendation s c m).recommendations
      = s.recommendations ++ [{ code := c, message := m, line := s.line_no }] := rfl

@[simp] theorem addNotification_line_info (s : PState) (c m : String) :
    (addNotification s c m).line_info = s.line_info := rfl

@[simp] theorem addNotification_line_no (s : PState) (c m : String) :
    (addNotification s c m).line_no = s.line_no := rfl

@[simp] theorem addNotification_signed (s : PState) (c m : String) :
    (addNotification s c m).signed = s.signed := rfl

@[simp] theorem addNotification_reading_sig (s : PState) (c m : String) :
    (addNotification s c m).reading_sig = s.reading_sig := rfl

@[simp] theorem addNotification_finished_sig (s : PState) (c m : String) :
    (addNotification s c m).finished_sig = s.finished_sig := rfl

@[simp] theorem addNotification_values (s : PState) (c m : String) :
    (addNotification s c m).values = s.values := rfl

@[simp] theorem addNotification_errors (s : PState) (c m : String) :
    (addNotification s c m).errors = s.errors := rfl

@[simp] theorem addNotification_recommendations (s : PState) (c m : String) :
    (addNotification s c m).recommendations = s.recommendations := rfl

/-- `parseExpires` touches only the diagnostics and the stored date. -/
theorem parseExpires_frame (o : Oracles) (v : String) (s : PState) :
    (parseExpires o v s).line_info = s.line_info
  ∧ (parseExpires o v s).line_no = s.line_no
  ∧ (parseExpires o v s).signed = s.signed
  ∧ (parseExpires o v s).reading_sig = s.reading_sig
  ∧ (parseExpires o v s).finished_sig = s.finished_sig
  ∧ (parseExpires o v s).values = s.values
  ∧ (parseExpires o v s).notifications = s.notifications := by
  unfold parseExpires
  cases o.dparse v <;> simp [addError] <;> split_ifs <;> simp

/-- `checkLangs` only appends errors. -/
theorem checkLangs_frame (o : Oracles) (langs : List String) (t : PState) :
    (checkLangs o langs t).line_info = t.line_info
  ∧ (checkLangs o langs t).line_no = t.line_no
  ∧ (checkLangs o langs t).signed = t.signed
  ∧ (checkLangs o langs t).reading_sig = t.reading_sig
  ∧ (checkLangs o langs t).finished_sig = t.finished_sig
  ∧ (checkLangs o langs t).values = t.values
  ∧ (checkLangs o langs t).notifications = t.notifications
  ∧ (checkLangs o langs t).recommendations = t.recommendations := by
  induction langs generalizing t with
  | nil => simp [checkLangs]
  | cons lang rest ih =>
    unfold checkLangs
    rcases ih (if o.tagValid lang = false then addError t "invalid_lang" invalidLangMsg else t)
      with ⟨h1, h2, h3, h4, h5, h6, h7, h8⟩
    constructor
    · rw [h1]; split_ifs <;> simp [addError]
    constructor
    · rw [h2]; split_ifs <;> simp [addError]
    constructor
    · rw [h3]; split_ifs <;> simp [addError]
    constructor
    · rw [h4]; split_ifs <;> simp [addError]
    constructor
    · rw [h5]; split_ifs <;> simp [addError]
    constructor
    · rw [h6]; split_ifs <;> simp [addError]
    constructor
    · rw [h7]; split_ifs <;> simp [addError]
    · rw [h8]; split_ifs <;> simp [addError]

@[simp] theorem parseExpires_line_info (o : Oracles) (v : String) (s : PState) :
    (parseExpires o v s).line_info = s.line_info := (parseExpires_frame o v s).1

@[simp] theorem parseExpires_line_no (o : Oracles) (v : String) (s : PState) :
    (parseExpires o v s).line_no = s.line_no := (parseExpires_frame o v s).2.1

@[simp] theorem parseExpires_signed (o : Oracles) (v : String) (s : PState) :
    (parseExpires o v s).signed = s.signed := (parseExpires_frame o v s).2.2.1

@[simp] theorem parseExpires_reading_sig (o : Oracles) (v : String) (s : PState) :
    (parseExpires o v s).reading_sig = s.reading_sig := (parseExpires_frame o v s).2.2.2.1

@[simp] theorem parseExpires_finished_sig (o : Oracles) (v : String) (s : PState) :
    (parseExpires o v s).finished_sig = s.finished_sig := (parseExpires_frame o v s).2.2.2.2.1

@[simp] theorem parseExpires_values (o : Oracles) (v : String) (s : PState) :
    (parseExpires o v s).values = s.values := (parseExpires_frame o v s).2.2.2.2.2.1

@[simp] theorem parseExpires_notifications (o : Oracles) (v : String) (s : PState) :
    (parseExpires o v s).notifications = s.notifications :=
  (parseExpires_frame o v s).2.2.2.2.2.2

@[simp] theorem checkLangs_line_info (o : Oracles) (ls : List String) (t : PState) :
    (checkLangs o ls t).line_info = t.line_info := (checkLangs_frame o ls t).1

@[simp] theorem checkLangs_line_no (o : Oracles) (ls : List String) (t : PState) :
    (checkLangs o ls t).line_no = t.line_no := (checkLangs_frame o ls t).2.1

@[simp] theorem checkLangs_signed (o : Oracles) (ls : List String) (t : PState) :
    (checkLangs o ls t).signed = t.signed := (checkLangs_frame o ls t).2.2.1

@[simp] theorem checkLangs_reading_sig (o : Oracles) (ls : List String) (t : PState) :
    (checkLangs o ls t).reading_sig = t.reading_sig := (checkLangs_frame o ls t).2.2.2.1

@[simp] theorem checkLangs_finished_sig (o : Oracles) (ls : List String) (t : PState) :
    (checkLangs o ls t).finished_sig = t.finished_sig := (checkLangs_frame o ls t).2.2.2.2.1

@[simp] theorem checkLangs_values (o : Oracles) (ls : List String) (t : PState) :
    (checkLangs o ls t).values = t.values := (checkLangs_frame o ls t).2.2.2.2.2.1

@[simp] theorem checkLangs_notifications (o : Oracles) (ls : List String) (t : PState) :
    (checkLangs o ls t).notifications = t.notifications :=
  (checkLangs_frame o ls t).2.2.2.2.2.2.1

@[simp] theorem checkLangs_recommendations (o : Oracles) (ls : List String) (t : PState) :
    (checkLangs o ls t).recommendations = t.recommendations :=
  (checkLangs_frame o ls t).2.2.2.2.2.2.2

@[simp] theorem fieldSpacing_line_info (s : PState) (k v : String) :
    (fieldSpacing s k v).line_info = s.line_info := by
  unfold fieldSpacing; dsimp only; split_ifs <;> simp [addError]

@[simp] theorem fieldSpacing_line_no (s : PState) (k v : String) :
    (fieldSpacing s k v).line_no = s.line_no := by
  unfold fieldSpacing; dsimp only; split_ifs <;> simp [addError]

@[simp] theorem fieldSpacing_signed (s : PState) (k v : String) :
    (fieldSpacing s k v).signed = s.signed := by
  unfold fieldSpacing; dsimp only; split_ifs <;> simp [addError]

@[simp] theorem fieldSpacing_reading_sig (s : PState) (k v : String) :
    (fieldSpacing s k v).reading_sig = s.reading_sig := by
  unfold fieldSpacing; dsimp only; split_ifs <;> simp [addError]

@[simp] theorem fieldSpacing_finished_sig (s : PState) (k v : String) :
    (fieldSpacing s k v).finished_sig = s.finished_sig := by
  unfold fieldSpacing; dsimp only; split_ifs <;> simp [addError]

@[simp] theorem fieldSpacing_values (s : PState) (k v : String) :
    (fieldSpacing s k v).values = s.values := by
  unfold fieldSpacing; dsimp only; split_ifs <;> simp [addError]

@[simp] theorem fieldSpacing_notifications (s : PState) (k v : String) :
    (fieldSpacing s k v).notifications = s.notifications := by
  unfold fieldSpacing; dsimp only; split_ifs <;> simp [addError]

@[simp] theorem fieldSpacing_recommendations (s : PState) (k v : String) :
    (fieldSpacing s k v).recommendations = s.recommendations := by
  unfold fieldSpacing; dsimp only; split_ifs <;> simp [addError]

@[simp] theorem fieldSpacing_langs (s : PState) (k v : String) :
    (fieldSpacing s k v).langs = s.langs := by
  unfold fieldSpacing; dsimp only; split_ifs <;> simp [addError, addErrorAt]

/-- Membership in the error list after `addError`: either an old error
or the new code. -/
theorem mem_addError_elim (s : PState) (c m : String) (e : ErrRec)
    (h : e ∈ (addError s c m).errors) : e ∈ s.errors ∨ e.code = c := by
  simp only [addError_errors, List.mem_append, List.mem_singleton] at h
  rcases h with h | rfl
  · exact Or.inl h
  · exact Or.inr rfl

/-- Every diagnostic added by the spacing checks is `prec_ws` or
`no_space`, appended after the existing errors. -/
theorem fieldSpacing_errors_shape (s : PState) (k v : String) :
    ∀ e ∈ (fieldSpacing s k v).errors,
      e ∈ s.errors ∨ e.code = "prec_ws" ∨ e.code = "no_space" := by
  unfold fieldSpacing
  dsimp only
  split_ifs <;> intro e he
  · rcases mem_addError_elim _ _ _ _ he with he2 | hc
    · rcases mem_addError_elim _ _ _ _ he2 with he3 | hc
      · exact Or.inl he3
      · exact Or.inr (Or.inl hc)
    · exact Or.inr (Or.inr hc)
  · rcases mem_addError_elim _ _ _ _ he with he2 | hc
    · exact Or.inl he2
    · exact Or.inr (Or.inr hc)
  · rcases mem_addError_elim _ _ _ _ he with he2 | hc
    · exact Or.inl he2
    · exact Or.inr (Or.inl hc)
  · exact Or.inl he

/-- When the raw value is non-empty and does not start with a space,
the spacing checks emit the `no_space` error at the current line. -/
theorem fieldSpacing_no_space (s : PState) (k v : String)
    (h1 : v ≠ "") (h2 : v.toList.head? ≠ some ' ') :
    ({ code := "no_space", message := noSpaceMsg, line := s.line_no } : ErrRec)
      ∈ (fieldSpacing s k v).errors := by
  unfold fieldSpacing
  dsimp only
  rw [if_pos ⟨h1, h2⟩]
  split_ifs <;> simp [addError_errors]

@[simp] theorem fieldSemantics_line_info (o : Oracles) (k v : String) (s : PState) :
    (fieldSemantics o k v s).line_info = s.line_info := by
  unfold fieldSemantics; split_ifs <;> simp [addError]

@[simp] theorem fieldSemantics_line_no (o : Oracles) (k v : String) (s : PState) :
    (fieldSemantics o k v s).line_no = s.line_no := by
  unfold fieldSemantics; split_ifs <;> simp [addError]

@[simp] theorem fieldSemantics_signed (o : Oracles) (k v : String) (s : PState) :
    (fieldSemantics o k v s).signed = s.signed := by
  unfold fieldSemantics; split_ifs <;> simp [addError]

@[simp] theorem fieldSemantics_reading_sig (o : Oracles) (k v : String) (s : PState) :
    (fieldSemantics o k v s).reading_sig = s.reading_sig := by
  unfold fieldSemantics; split_ifs <;> simp [addError]

@[simp] theorem fieldSemantics_finished_sig (o : Oracles) (k v : String) (s : PState) :
    (fieldSemantics o k v s).finished_sig = s.finished_sig := by
  unfold fieldSemantics; split_ifs <;> simp [addError]

@[simp] theorem fieldSemantics_values (o : Oracles) (k v : String) (s : PState) :
    (fieldSemantics o k v s).values = s.values := by
  unfold fieldSemantics; split_ifs <;> simp [addError]

@[simp] theorem fieldSemantics_notifications (o : Oracles) (k v : String) (s : PState) :
    (fieldSemantics o k v s).notifications = s.notifications := by
  unfold fieldSemantics; split_ifs <;> simp [addError]

@[simp] theorem fieldFinish_line_info (o : Oracles) (ruf : Bool) (k v : String) (s : PState) :
    (fieldFinish o ruf k v s).1.line_info = s.line_info := by
  unfold fieldFinish; dsimp only; split_ifs <;> simp

@[simp] theorem fieldFinish_line_no (o : Oracles) (ruf : Bool) (k v : String) (s : PState) :
    (fieldFinish o ruf k v s).1.line_no = s.line_no := by
  unfold fieldFinish; dsimp only; split_ifs <;> simp

@[simp] theorem fieldFinish_signed (o : Oracles) (ruf : Bool) (k v : String) (s : PState) :
    (fieldFinish o ruf k v s).1.signed = s.signed := by
  unfold fieldFinish; dsimp only; split_ifs <;> simp

@[simp] theorem fieldFinish_reading_sig (o : Oracles) (ruf : Bool) (k v : String) (s : PState) :
    (fieldFinish o ruf k v s).1.reading_sig = s.reading_sig := by
  unfold fieldFinish; dsimp only; split_ifs <;> simp

@[simp] theorem fieldFinish_finished_sig (o : Oracles) (ruf : Bool) (k v : String) (s : PState) :
    (fieldFinish o ruf k v s).1.finished_sig = s.finished_sig := by
  unfold fieldFinish; dsimp only; split_ifs <;> simp

@[simp] theorem fieldFinish_values (o : Oracles) (ruf : Bool) (k v : String) (s : PState) :
    (fieldFinish o ruf k v s).1.values = s.values ++ [(k, v)] := by
  unfold fieldFinish; dsimp only; split_ifs <;> simp

/-- `parseField` never touches the classification list, the line
counter, or the envelope flags. -/
theorem parseField_frame (o : Oracles) (ruf : Bool) (s : PState) (line : String) :
    (parseField o ruf s line).1.line_info = s.line_info
  ∧ (parseField o ruf s line).1.line_no = s.line_no
  ∧ (parseField o ruf s line).1.signed = s.signed
  ∧ (parseField o ruf s line).1.reading_sig = s.reading_sig
  ∧ (parseField o ruf s line).1.finished_sig = s.finished_sig := by
  unfold parseField
  dsimp only
  split_ifs <;> simp [addError]

@[simp] theorem parseField_line_info (o : Oracles) (ruf : Bool) (s : PState) (line : String) :
    (parseField o ruf s line).1.line_info = s.line_info := (parseField_frame o ruf s line).1

@[simp] theorem parseField_line_no (o : Oracles) (ruf : Bool) (s : PState) (line : String) :
    (parseField o ruf s line).1.line_no = s.line_no := (parseField_frame o ruf s line).2.1

@[simp] theorem parseField_signed (o : Oracles) (ruf : Bool) (s : PState) (line : String) :
    (parseField o ruf s line).1.signed = s.signed := (parseField_frame o ruf s line).2.2.1

@[simp] theorem parseField_reading_sig (o : Oracles) (ruf : Bool) (s : PState) (line : String) :
    (parseField o ruf s line).1.reading_sig = s.reading_sig :=
  (parseField_frame o ruf s line).2.2.2.1

@[simp] theorem parseField_finished_sig (o : Oracles) (ruf : Bool) (s : PState) (line : String) :
    (parseField o ruf s line).1.finished_sig = s.finished_sig :=
  (parseField_frame o ruf s line).2.2.2.2

/-- `parseLine` never touches the classification list or the line
counter (the loop, not the classifier, appends the record and advances
the counter). -/
theorem parseLine_frame (o : Oracles) (ruf : Bool) (content : String) (s : PState)
    (l : String) :
    (parseLine o ruf content s l).1.line_info = s.line_info
  ∧ (parseLine o ruf content s l).1.line_no = s.line_no := by
  unfold parseLine
  dsimp only
  split_ifs <;> cases hp : o.pgpBlob content <;> simp [hp, addError]

@[simp] theorem parseLine_line_info (o : Oracles) (ruf : Bool) (content : String)
    (s : PState) (l : String) :
    (parseLine o ruf content s l).1.line_info = s.line_info :=
  (parseLine_frame o ruf content s l).1

@[simp] theorem parseLine_line_no (o : Oracles) (ruf : Bool) (content : String)
    (s : PState) (l : String) :
    (parseLine o ruf content s l).1.line_no = s.line_no :=
  (parseLine_frame o ruf content s l).2

/-! ### The record stream produced by the line loop -/

@[simp] theorem stepState_line_info (o : Oracles) (ruf : Bool) (content : String)
    (s : PState) (l : String) :
    (stepState o ruf content s l).line_info
      = s.line_info ++ [(parseLine o ruf content s l).2] := by
  unfold stepState
  simp

theorem processLines_line_info (o : Oracles) (ruf : Bool) (content : String) :
    ∀ (ls : List String) (s : PState),
      (processLines o ruf content ls s).line_info
        = s.line_info ++ producedRecs o ruf content ls s := by
  intro ls
  induction ls with
  | nil => intro s; simp [processLines, producedRecs]
  | cons l ls ih =>
    intro s
    rw [processLines, producedRecs, ih]
    simp

theorem producedRecs_length (o : Oracles) (ruf : Bool) (content : String) :
    ∀ (ls : List String) (s : PState),
      (producedRecs o ruf content ls s).length = ls.length := by
  intro ls
  induction ls with
  | nil => intro s; rfl
  | cons l ls ih => intro s; rw [producedRecs]; simp [ih]

theorem producedRecs_get (o : Oracles) (ruf : Bool) (content : String) :
    ∀ (ls : List String) (s : PState) (i : Nat) (l : String), ls[i]? = some l →
      (producedRecs o ruf content ls s)[i]?
        = some (parseLine o ruf content
            (processLines o ruf content (ls.take i) s) l).2 := by
  intro ls
  induction ls with
  | nil => intro s i l h; simp at h
  | cons a ls ih =>
    intro s i l h
    cases i with
    | zero =>
      simp at h
      subst h
      simp [producedRecs, processLines]
    | succ i =>
      simp at h
      rw [producedRecs]
      simpa [processLines] using ih (stepState o ruf content s a) i l h

/-! ### Frame lemmas for the cross-field pass -/

@[simp] theorem vcExpires_line_info (s : PState) :
    (vcExpires s).line_info = s.line_info := by
  unfold vcExpires; split_ifs <;> simp

@[simp] theorem vcExpires_values (s : PState) : (vcExpires s).values = s.values := by
  unfold vcExpires; split_ifs <;> simp

theorem vcExpires_errors_mono (s : PState) (e : ErrRec) (h : e ∈ s.errors) :
    e ∈ (vcExpires s).errors := by
  unfold vcExpires; split_ifs <;> simp [h]

@[simp] theorem vcCanonicalMatch_line_info (urls : Option (List String)) (s : PState) :
    (vcCanonicalMatch urls s).line_info = s.line_info := by
  unfold vcCanonicalMatch; cases urls <;> dsimp only <;> try rfl
  split_ifs <;> simp

@[simp] theorem vcCanonicalMatch_values (urls : Option (List String)) (s : PState) :
    (vcCanonicalMatch urls s).values = s.values := by
  unfold vcCanonicalMatch; cases urls <;> dsimp only <;> try rfl
  split_ifs <;> simp

theorem vcCanonicalMatch_errors_mono (urls : Option (List String)) (s : PState)
    (e : ErrRec) (h : e ∈ s.errors) : e ∈ (vcCanonicalMatch urls s).errors := by
  unfold vcCanonicalMatch; cases urls <;> dsimp only
  · exact h
  · split_ifs <;> simp [h]

@[simp] theorem vcLastLine_line_info (s : PState) :
    (vcLastLine s).line_info = s.line_info := by
  unfold vcLastLine; split_ifs <;> simp

@[simp] theorem vcLastLine_values (s : PState) : (vcLastLine s).values = s.values := by
  unfold vcLastLine; split_ifs <;> simp

theorem vcLastLine_errors_mono (s : PState) (e : ErrRec) (h : e ∈ s.errors) :
    e ∈ (vcLastLine s).errors := by
  unfold vcLastLine; split_ifs
  · exact addErrorAt_errors_mono _ _ _ _ _ h
  · exact h

@[simp] theorem vcCsaf_line_info (s : PState) : (vcCsaf s).line_info = s.line_info := by
  unfold vcCsaf; dsimp only; split_ifs <;> simp

@[simp] theorem vcCsaf_values (s : PState) : (vcCsaf s).values = s.values := by
  unfold vcCsaf; dsimp only; split_ifs <;> simp

theorem vcCsaf_errors_mono (s : PState) (e : ErrRec) (h : e ∈ s.errors) :
    e ∈ (vcCsaf s).errors := by
  unfold vcCsaf; dsimp only; split_ifs <;> simp [h]

@[simp] theorem vcContact_line_info (s : PState) :
    (vcContact s).line_info = s.line_info := by
  unfold vcContact; split_ifs <;> simp

@[simp] theorem vcContact_values (s : PState) : (vcContact s).values = s.values := by
  unfold vcContact; split_ifs <;> simp

theorem vcContact_errors_mono (s : PState) (e : ErrRec) (h : e ∈ s.errors) :
    e ∈ (vcContact s).errors := by
  unfold vcContact; split_ifs <;> simp [h]

@[simp] theorem vcLangs_line_info (s : PState) : (vcLangs s).line_info = s.line_info := by
  unfold vcLangs; split_ifs <;> simp

@[simp] theorem vcLangs_values (s : PState) : (vcLangs s).values = s.values := by
  unfold vcLangs; split_ifs <;> simp

theorem vcLangs_errors_mono (s : PState) (e : ErrRec) (h : e ∈ s.errors) :
    e ∈ (vcLangs s).errors := by
  unfold vcLangs; split_ifs <;> simp [h]

@[simp] theorem vcSigned_line_info (s : PState) : (vcSigned s).line_info = s.line_info := by
  unfold vcSigned; dsimp only; split_ifs <;> simp

@[simp] theorem vcSigned_values (s : PState) : (vcSigned s).values = s.values := by
  unfold vcSigned; dsimp only; split_ifs <;> simp

@[simp] theorem vcSigned_errors (s : PState) : (vcSigned s).errors = s.errors := by
  unfold vcSigned; dsimp only; split_ifs <;> simp

@[simp] theorem validateContents_line_info (urls : Option (List String)) (s : PState) :
    (validateContents urls s).line_info = s.line_info := by
  unfold validateContents; simp

@[simp] theorem validateContents_values (urls : Option (List String)) (s : PState) :
    (validateContents urls s).values = s.values := by
  unfold validateContents; simp

theorem validateContents_errors_mono (urls : Option (List String)) (s : PState)
    (e : ErrRec) (h : e ∈ s.errors) : e ∈ (validateContents urls s).errors := by
  unfold validateContents
  rw [vcSigned_errors]
  exact vcLangs_errors_mono _ _ (vcContact_errors_mono _ _ (vcCsaf_errors_mono _ _
    (vcLastLine_errors_mono _ _ (vcCanonicalMatch_errors_mono _ _ _
      (vcExpires_errors_mono _ _ h)))))

/-- Errors present after the expires block survive to the end of the
cross-field pass. -/
theorem validateContents_errors_from_expires (urls : Option (List String)) (s : PState)
    (e : ErrRec) (h : e ∈ (vcExpires s).errors) : e ∈ (validateContents urls s).errors := by
  unfold validateContents
  rw [vcSigned_errors]
  exact vcLangs_errors_mono _ _ (vcContact_errors_mono _ _ (vcCsaf_errors_mono _ _
    (vcLastLine_errors_mono _ _ (vcCanonicalMatch_errors_mono _ _ _ h))))

/-- Errors present after the final-line block survive to the end of the
cross-field pass. -/
theorem validateContents_errors_from_lastline (urls : Option (List String)) (s : PState)
    (e : ErrRec) (h : e ∈ (vcLastLine (vcCanonicalMatch urls (vcExpires s))).errors) :
    e ∈ (validateContents urls s).errors := by
  unfold validateContents
  rw [vcSigned_errors]
  exact vcLangs_errors_mono _ _ (vcContact_errors_mono _ _ (vcCsaf_errors_mono _ _ h))

/-- Errors present after the preferred-languages block survive to the
end of the cross-field pass. -/
theorem validateContents_errors_from_langs (urls : Option (List String)) (s : PState)
    (e : ErrRec)
    (h : e ∈ (vcLangs (vcContact (vcCsaf (vcLastLine
        (vcCanonicalMatch urls (vcExpires s)))))).errors) :
    e ∈ (validateContents urls s).errors := by
  unfold validateContents
  rw [vcSigned_errors]
  exact h

@[simp] theorem vcExpires_getVals (s : PState) (k : String) :
    getVals (vcExpires s) k = getVals s k := by
  unfold getVals; rw [vcExpires_values]

@[simp] theorem vcCanonicalMatch_getVals (urls : Option (List String)) (s : PState)
    (k : String) : getVals (vcCanonicalMatch urls s) k = getVals s k := by
  unfold getVals; rw [vcCanonicalMatch_values]

@[simp] theorem vcLastLine_getVals (s : PState) (k : String) :
    getVals (vcLastLine s) k = getVals s k := by
  unfold getVals; rw [vcLastLine_values]

@[simp] theorem vcCsaf_getVals (s : PState) (k : String) :
    getVals (vcCsaf s) k = getVals s k := by
  unfold getVals; rw [vcCsaf_values]

@[simp] theorem vcContact_getVals (s : PState) (k : String) :
    getVals (vcContact s) k = getVals s k := by
  unfold getVals; rw [vcContact_values]

@[simp] theorem vcLangs_getVals (s : PState) (k : String) :
    getVals (vcLangs s) k = getVals s k := by
  unfold getVals; rw [vcLangs_values]

@[simp] theorem validateContents_getVals (urls : Option (List String)) (s : PState)
    (k : String) : getVals (validateContents urls s) k = getVals s k := by
  unfold getVals; rw [validateContents_values]

/-- `str.split` always returns at least one element. -/
theorem splitCharAux_length_pos (sep : Char) :
    ∀ (cs acc : List Char), 0 < (splitCharAux sep cs acc).length := by
  intro cs
  induction cs with
  | nil => intro acc; simp [splitCharAux]
  | cons c cs ih =>
    intro acc
    rw [splitCharAux]
    split_ifs <;> simp [ih]

theorem pySplitLines_length_pos (s : String) : 0 < (pySplitLines s).length :=
  splitCharAux_length_pos '\n' s.toList []

/-! ### Claims -/

/-- C1: for every input document the parser produces exactly one
LineRecord per input line (the split on the line-feed terminator), and
the record at index `i` is exactly the classification of line `i` in
the state reached after lines `0..i-1`: no line is skipped, merged or
reordered. -/
theorem claim_c1_one_record_per_line (o : Oracles) (urls : Option (List String))
    (ruf : Bool) (content : String) :
    (runParser o urls ruf content).line_info.length = (pySplitLines content).length
  ∧ ∀ (i : Nat) (l : String), (pySplitLines content)[i]? = some l →
      (runParser o urls ruf content).line_info[i]?
        = some (parseLine o ruf content
            (processLines o ruf content ((pySplitLines content).take i) startState) l).2 := by
  unfold runParser
  dsimp only
  rw [validateContents_line_info]
  constructor
  · simp [processLines_line_info, producedRecs_length, startState, initState]
  · intro i l h
    rw [processLines_line_info]
    have hs : startState.line_info = [] := rfl
    rw [hs, List.nil_append]
    exact producedRecs_get o ruf content (pySplitLines content) startState i l h

/-- C1 witness: on the two-line document `"a\nb"`, the second record is
the classification of `"b"` in the state after `"a"`. -/
theorem claim_c1_witness :
    (runParser testOracles none true "a\nb").line_info[1]?
      = some (parseLine testOracles true "a\nb"
          (processLines testOracles true "a\nb" ((pySplitLines "a\nb").take 1) startState)
          "b").2 :=
  (claim_c1_one_record_per_line testOracles none true "a\nb").2 1 "b" (by decide)

/-- C9: after a completed validation run `is_valid` holds exactly when
the error list is empty; recommendations and notifications do not enter
the definition. -/
theorem claim_c9_is_valid (o : Oracles) (urls : Option (List String)) (ruf : Bool)
    (content : String) :
    (runParser o urls ruf content).isValid = true
      ↔ (runParser o urls ruf content).errors = [] := by
  unfold PState.isValid
  cases h : (runParser o urls ruf content).errors <;> simp [h]

/-- C10: when `preferred-languages` was recorded at least once, the
accessor returns the comma-split, stripped tokens of the first recorded
occurrence, whatever the later occurrences are; more than one
occurrence only contributes the `multi_lang` error in the cross-field
pass. -/
theorem claim_c10_preferred_languages (urls : Option (List String)) (s : PState)
    (v : String) (rest : List String)
    (h : getVals s PREFERRED_LANGUAGES = v :: rest) :
    preferredLanguages s = some ((pySplitChar ',' v).map pyStrip)
  ∧ (rest ≠ [] → ∃ e ∈ (validateContents urls s).errors, e.code = "multi_lang") := by
  constructor
  · unfold preferredLanguages
    rw [h]
  · intro hrest
    set t := vcContact (vcCsaf (vcLastLine (vcCanonicalMatch urls (vcExpires s)))) with ht
    have hv : getVals t PREFERRED_LANGUAGES = v :: rest := by
      rw [ht]; simp [h]
    refine ⟨{ code := "multi_lang", message := multiLangMsg, line := t.line_no }, ?_, rfl⟩
    apply validateContents_errors_from_langs
    rw [← ht]
    unfold vcLangs
    rw [hv, if_pos (List.cons_ne_nil v rest), if_pos]
    · simp [addError_errors]
    · have : 0 < rest.length := List.length_pos.mpr hrest
      simp only [List.length_cons]
      omega

/-- C10 witness: with two recorded occurrences `"en, nl"` and `"fr"`,
the accessor returns the tokens of the first and the cross-field pass
reports `multi_lang`. -/
theorem claim_c10_witness :
    preferredLanguages sLangs = some ["en", "nl"]
  ∧ (∃ e ∈ (validateContents none sLangs).errors, e.code = "multi_lang") := by
  have h := claim_c10_preferred_languages none sLangs "en, nl" ["fr"] (by decide)
  exact ⟨by rw [h.1]; decide, h.2 (by decide)⟩

/-- C4: after the cross-field pass, a run that recorded no `expires`
value has a `no_expire` error, and a run that recorded more than one
has a `multi_expire` error. -/
theorem claim_c4_expires_cardinality (o : Oracles) (urls : Option (List String))
    (ruf : Bool) (content : String) :
    (getVals (runParser o urls ruf content) "expires" = [] →
       ∃ e ∈ (runParser o urls ruf content).errors, e.code = "no_expire")
  ∧ (1 < (getVals (runParser o urls ruf content) "expires").length →
       ∃ e ∈ (runParser o urls ruf content).errors, e.code = "multi_expire") := by
  unfold runParser
  dsimp only
  set t := ({ processLines o ruf content (pySplitLines content) startState
              with line_no := none } : PState) with ht
  constructor
  · intro hempty
    rw [validateContents_getVals] at hempty
    refine ⟨{ code := "no_expire", message := noExpireMsg, line := t.line_no }, ?_, rfl⟩
    apply validateContents_errors_from_expires
    unfold vcExpires
    rw [if_pos hempty]
    simp [addError_errors]
  · intro hmulti
    rw [validateContents_getVals] at hmulti
    refine ⟨{ code := "multi_expire", message := multiExpireMsg, line := t.line_no }, ?_, rfl⟩
    apply validateContents_errors_from_expires
    unfold vcExpires
    rw [if_neg, if_pos hmulti]
    · simp [addError_errors]
    · intro hnil
      rw [hnil] at hmulti
      simp at hmulti

/-- C3: for an `Expires` value: a failed general parse raises
`invalid_expiry`; a successful parse that misses the strict ISO-8601
pattern raises `invalid_expiry` and runs no date comparison; a parsed,
pattern-matching value more than one year ahead (`maxValue`, the code's
`now.replace(year=now.year + 1)`) yields only the `long_expiry`
recommendation, one in the past yields only the `expired` error, and
one between `now` and one year out (inclusive) yields neither. -/
theorem claim_c3_expires_validation (o : Oracles) (v : String) (s : PState)
    (hnm : o.now ≤ o.maxValue) :
    (o.dparse v = none →
       (parseExpires o v s).errors = s.errors ++
         [{ code := "invalid_expiry", message := invalidExpiryMsg, line := s.line_no }]
     ∧ (parseExpires o v s).recommendations = s.recommendations)
  ∧ (∀ t : Int, o.dparse v = some t → iso8601Match v = false →
       (parseExpires o v s).errors = s.errors ++
         [{ code := "invalid_expiry", message := invalidExpiryMsg, line := s.line_no }]
     ∧ (parseExpires o v s).recommendations = s.recommendations)
  ∧ (∀ t : Int, o.dparse v = some t → iso8601Match v = true →
       ((o.maxValue < t →
           (parseExpires o v s).recommendations = s.recommendations ++
             [{ code := "long_expiry", message := longExpiryMsg, line := s.line_no }]
         ∧ (parseExpires o v s).errors = s.errors)
       ∧ (t < o.now →
           (parseExpires o v s).errors = s.errors ++
             [{ code := "expired", message := expiredMsg, line := s.line_no }]
         ∧ (parseExpires o v s).recommendations = s.recommendations)
       ∧ (o.now ≤ t → t ≤ o.maxValue →
           (parseExpires o v s).errors = s.errors
         ∧ (parseExpires o v s).recommendations = s.recommendations))) := by
  refine ⟨?_, ?_, ?_⟩
  · intro h
    unfold parseExpires
    rw [h]
    simp [addError_errors]
  · intro t h hiso
    unfold parseExpires
    rw [h]
    dsimp only
    rw [if_pos hiso]
    simp [addError_errors]
  · intro t h hiso
    unfold parseExpires
    rw [h]
    dsimp only
    rw [if_neg (by simp [hiso])]
    refine ⟨?_, ?_, ?_⟩
    · intro hgt
      rw [if_pos hgt]
      simp [addRecommendation]
    · intro hlt
      rw [if_neg (by omega), if_pos hlt]
      simp [addError_errors]
    · intro h1 h2
      rw [if_neg (by omega), if_neg (by omega)]
      simp

/-- C3 witness: a parseable, pattern-matching timestamp (`200`) more
than one year out (`maxValue = 100`) yields exactly the `long_expiry`
recommendation and no error. -/
theorem claim_c3_witness :
    (parseExpires testOracles "2031-01-01T00:00:00Z" initState).recommendations
      = initState.recommendations ++
          [{ code := "long_expiry", message := longExpiryMsg, line := initState.line_no }]
  ∧ (parseExpires testOracles "2031-01-01T00:00:00Z" initState).errors
      = initState.errors :=
  ((claim_c3_expires_validation testOracles "2031-01-01T00:00:00Z" initState
      (by decide)).2.2 200 (by decide) (by decide)).1 (by decide)

/-- C2: over one classifier step the envelope state evolves
monotonically — `signed` and `signature_finished` are never unset,
`reading_signature` holds only while `signed` does, `reading_signature`
ends exactly when `signature_finished` is set, `signature_finished` is
set only from within a signature block — and once the signature is
finished, any further non-blank line only appends the `data_after_sig`
error and changes no envelope flag. -/
theorem claim_c2_envelope_monotone (o : Oracles) (ruf : Bool) (content : String)
    (s : PState) (line : String)
    (hrs : s.reading_sig = true → s.signed = true)
    (hrf : ¬ (s.reading_sig = true ∧ s.finished_sig = true)) :
    (s.signed = true → (parseLine o ruf content s line).1.signed = true)
  ∧ (s.finished_sig = true → (parseLine o ruf content s line).1.finished_sig = true)
  ∧ ((parseLine o ruf content s line).1.reading_sig = true →
       (parseLine o ruf content s line).1.signed = true)
  ∧ (s.reading_sig = true → (parseLine o ruf content s line).1.reading_sig = false →
       (parseLine o ruf content s line).1.finished_sig = true)
  ∧ (s.finished_sig = false → (parseLine o ruf content s line).1.finished_sig = true →
       s.reading_sig = true)
  ∧ (s.finished_sig = true → pyRstrip line ≠ "" →
       (parseLine o ruf content s line).1.errors = s.errors ++
         [{ code := "data_after_sig", message := dataAfterSigMsg, line := s.line_no }]
     ∧ (parseLine o ruf content s line).2.type = "error"
     ∧ (parseLine o ruf content s line).1.signed = s.signed
     ∧ (parseLine o ruf content s line).1.reading_sig = s.reading_sig
     ∧ (parseLine o ruf content s line).1.finished_sig = s.finished_sig) := by
  cases hr : s.reading_sig with
  | true =>
    have hsgn : s.signed = true := hrs hr
    have hnf : s.finished_sig = false := by
      cases hf : s.finished_sig
      · rfl
      · exact absurd ⟨hr, hf⟩ hrf
    unfold parseLine
    dsimp only
    rw [if_pos hr]
    split_ifs with hend <;> refine ⟨?_, ?_, ?_, ?_, ?_, ?_⟩ <;> simp_all
  | false =>
    cases hf : s.finished_sig with
    | true =>
      by_cases he : pyRstrip line = ""
      · have h1 : strStarts "" "- " = false := by decide
        have h2 : ¬ (("" : String) = beginMsgMarker) := by decide
        have h3 : ¬ (("" : String) = beginSigMarker) := by decide
        have h4 : strStarts "" "#" = false := by decide
        have h5 : ("" : String).toList.contains ':' = false := by decide
        unfold parseLine
        dsimp only
        rw [if_neg (by simp [hr]), if_neg (by simp [he]), he]
        simp only [h1, h2, h3, h4, h5]
        refine ⟨?_, ?_, ?_, ?_, ?_, ?_⟩ <;> simp_all
      · unfold parseLine
        dsimp only
        rw [if_neg (by simp [hr]), if_pos ⟨he, hf⟩]
        refine ⟨?_, ?_, ?_, ?_, ?_, ?_⟩ <;> simp_all [addError_errors]
    | false =>
      unfold parseLine
      dsimp only
      rw [if_neg (by simp [hr]), if_neg (by simp [hf])]
      split_ifs <;> cases hp : o.pgpBlob content <;>
        refine ⟨?_, ?_, ?_, ?_, ?_, ?_⟩ <;> simp_all [addError]

/-- C2 witness: in a finished-signature state, the non-blank line
`"data"` appends exactly the `data_after_sig` error, is classified as
`error`, and leaves every envelope flag unchanged. -/
theorem claim_c2_witness :
    (parseLine testOracles true "" sFin "data").1.errors = sFin.errors ++
      [{ code := "data_after_sig", message := dataAfterSigMsg, line := sFin.line_no }]
  ∧ (parseLine testOracles true "" sFin "data").2.type = "error"
  ∧ (parseLine testOracles true "" sFin "data").1.signed = sFin.signed
  ∧ (parseLine testOracles true "" sFin "data").1.reading_sig = sFin.reading_sig
  ∧ (parseLine testOracles true "" sFin "data").1.finished_sig = sFin.finished_sig :=
  (claim_c2_envelope_monotone testOracles true "" sFin "data"
      (by decide) (by decide)).2.2.2.2.2 (by decide) (by decide)

theorem parseExpires_errors_mono (o : Oracles) (v : String) (s : PState) (e : ErrRec)
    (h : e ∈ s.errors) : e ∈ (parseExpires o v s).errors := by
  unfold parseExpires
  cases hd : o.dparse v
  · simp [addError_errors, h]
  · dsimp only
    split_ifs <;> simp [addError_errors, h]

theorem checkLangs_errors_mono (o : Oracles) :
    ∀ (ls : List String) (t : PState) (e : ErrRec), e ∈ t.errors →
      e ∈ (checkLangs o ls t).errors := by
  intro ls
  induction ls with
  | nil => intro t e h; exact h
  | cons lang rest ih =>
    intro t e h
    rw [checkLangs]
    apply ih
    split_ifs <;> simp [addError_errors, h]

theorem fieldSemantics_errors_mono (o : Oracles) (k v : String) (s : PState) (e : ErrRec)
    (h : e ∈ s.errors) : e ∈ (fieldSemantics o k v s).errors := by
  unfold fieldSemantics
  split_ifs <;>
    first
    | simp [addError_errors, h]
    | exact parseExpires_errors_mono o v s e h
    | exact checkLangs_errors_mono o _ _ e h
    | exact h

theorem fieldFinish_errors_mono (o : Oracles) (ruf : Bool) (k v : String) (s : PState)
    (e : ErrRec) (h : e ∈ s.errors) : e ∈ (fieldFinish o ruf k v s).1.errors := by
  unfold fieldFinish
  dsimp only
  split_ifs <;> simpa using fieldSemantics_errors_mono o k v s e h

/-- C6 counterexample: on the document `":x\n"`, line 1 is a field line
whose value `"x"` is non-empty and does not begin with a space; the
parser raises `no_space` for it, yet nothing is recorded in FieldValues
(the empty field name aborts the field with `empty_key` first). -/
theorem claim_c6_counterexample :
    (fieldRawValue ":x" ≠ "" ∧ (fieldRawValue ":x").toList.head? ≠ some ' ')
  ∧ ({ code := "no_space", message := noSpaceMsg, line := some 1 } : ErrRec)
      ∈ (runParser testOracles none true ":x\n").errors
  ∧ (runParser testOracles none true ":x\n").values = []
  ∧ getVals (runParser testOracles none true ":x\n") (fieldKey ":x") = [] := by decide

/-- C6 as amended: for a field line whose raw value is non-empty and
does not begin with a space, the parser raises `no_space`
unconditionally; and when in addition the (right-trimmed, lower-cased)
field name is non-empty and is not the signed-mode `hash` header, and
the left-trimmed value is non-empty, the left-trimmed value is still
recorded in FieldValues under that name (the diagnostic does not
prevent the recording). -/
theorem claim_c6_no_space_records (o : Oracles) (ruf : Bool) (s : PState) (line : String)
    (hv1 : fieldRawValue line ≠ "")
    (hv2 : (fieldRawValue line).toList.head? ≠ some ' ') :
    ({ code := "no_space", message := noSpaceMsg, line := s.line_no } : ErrRec)
      ∈ (parseField o ruf s line).1.errors
  ∧ (fieldKey line ≠ "" → ¬ (fieldKey line = "hash" ∧ s.signed = true) →
       pyLstrip (fieldRawValue line) ≠ "" →
       (parseField o ruf s line).1.values
         = s.values ++ [(fieldKey line, pyLstrip (fieldRawValue line))]
     ∧ (parseField o ruf s line).2
         = { type := "field", field_name := some (fieldKey line),
             value := pyLstrip (fieldRawValue line) }) := by
  unfold parseField
  dsimp only
  set k0 := String.mk ((splitAtColon line.toList).1.map Char.toLower) with hk0
  set v0 := String.mk (splitAtColon line.toList).2 with hv0
  have hkey : pyRstrip k0 = fieldKey line := rfl
  have hval : v0 = fieldRawValue line := rfl
  have hns := fieldSpacing_no_space s k0 v0 (by rw [hval]; exact hv1)
    (by rw [hval]; exact hv2)
  constructor
  · split_ifs
    · exact hns
    · simp only [addError_errors, List.mem_append]
      exact Or.inl hns
    · simp only [addError_errors, List.mem_append]
      exact Or.inl hns
    · exact fieldFinish_errors_mono _ _ _ _ _ _ hns
  · intro hk1 hk2 hv3
    rw [if_neg (show ¬ (pyRstrip k0 = "hash" ∧ (fieldSpacing s k0 v0).signed = true) from by
          rw [fieldSpacing_signed, hkey]; exact hk2),
        if_neg (show ¬ pyRstrip k0 = "" from by rw [hkey]; exact hk1),
        if_neg (show ¬ pyLstrip v0 = "" from by rw [hval]; exact hv3)]
    refine ⟨?_, rfl⟩
    rw [fieldFinish_values, fieldSpacing_values, hkey, hval]

/-- C6 witness: the line `"Contact:https://example.com/contact"` gets a
`no_space` error and still records `https://example.com/contact` under
`contact`. -/
theorem claim_c6_witness :
    ({ code := "no_space", message := noSpaceMsg, line := initState.line_no } : ErrRec)
      ∈ (parseField testOracles true initState "Contact:https://example.com/contact").1.errors
  ∧ (parseField testOracles true initState "Contact:https://example.com/contact").1.values
      = initState.values ++
          [(fieldKey "Contact:https://example.com/contact",
            pyLstrip (fieldRawValue "Contact:https://example.com/contact"))] := by
  have h := claim_c6_no_space_records testOracles true initState
    "Contact:https://example.com/contact" (by decide) (by decide)
  exact ⟨h.1, (h.2 (by decide) (by decide) (by decide)).1⟩

/-- C7 counterexample: in the signed document
`"-----BEGIN PGP SIGNED MESSAGE-----\nHash:SHA256\n"`, line 2 is a
colon-containing line whose name lower-cases to `hash` while `signed`
is true; it is classified `pgp_envelope` and nothing is recorded, but
field validation is not skipped entirely: the `no_space` separator
diagnostic is still emitted for that line. -/
theorem claim_c7_counterexample :
    ((runParser testOracles none true
        "-----BEGIN PGP SIGNED MESSAGE-----\nHash:SHA256\n").line_info[1]?
      = some { type := "pgp_envelope", field_name := none, value := "Hash:SHA256" })
  ∧ ({ code := "no_space", message := noSpaceMsg, line := some 2 } : ErrRec)
      ∈ (runParser testOracles none true
          "-----BEGIN PGP SIGNED MESSAGE-----\nHash:SHA256\n").errors
  ∧ getVals (runParser testOracles none true
        "-----BEGIN PGP SIGNED MESSAGE-----\nHash:SHA256\n") "hash" = [] := by decide

/-- C7 as amended: a colon-containing line whose name lower-cases to
`hash` while `signed` is true is classified `pgp_envelope`; no value is
recorded, no notification or recommendation is appended and no field
semantic check runs, but the separator-spacing checks still run first,
so the only diagnostics the line can add are `prec_ws` and `no_space`. -/
theorem claim_c7_hash_envelope (o : Oracles) (ruf : Bool) (s : PState) (line : String)
    (h1 : fieldKey line = "hash") (h2 : s.signed = true) :
    (parseField o ruf s line).2
      = { type := "pgp_envelope", field_name := none, value := line }
  ∧ (parseField o ruf s line).1.values = s.values
  ∧ (parseField o ruf s line).1.notifications = s.notifications
  ∧ (parseField o ruf s line).1.recommendations = s.recommendations
  ∧ (parseField o ruf s line).1.langs = s.langs
  ∧ ∀ e ∈ (parseField o ruf s line).1.errors,
      e ∈ s.errors ∨ e.code = "prec_ws" ∨ e.code = "no_space" := by
  unfold parseField
  dsimp only
  set k0 := String.mk ((splitAtColon line.toList).1.map Char.toLower) with hk0
  set v0 := String.mk (splitAtColon line.toList).2 with hv0
  have hkey : pyRstrip k0 = fieldKey line := rfl
  rw [if_pos (show pyRstrip k0 = "hash" ∧ (fieldSpacing s k0 v0).signed = true from
        ⟨by rw [hkey]; exact h1, by rw [fieldSpacing_signed]; exact h2⟩)]
  exact ⟨rfl, fieldSpacing_values s k0 v0, fieldSpacing_notifications s k0 v0,
    fieldSpacing_recommendations s k0 v0, fieldSpacing_langs s k0 v0,
    fieldSpacing_errors_shape s k0 v0⟩

/-- C7 witness: in a signed state, `"Hash: SHA256"` is classified as
part of the PGP envelope and records nothing. -/
theorem claim_c7_witness :
    (parseField testOracles true sSigned "Hash: SHA256").2
      = { type := "pgp_envelope", field_name := none, value := "Hash: SHA256" }
  ∧ (parseField testOracles true sSigned "Hash: SHA256").1.values = sSigned.values :=
  ⟨(claim_c7_hash_envelope testOracles true sSigned "Hash: SHA256"
      (by decide) (by decide)).1,
   (claim_c7_hash_envelope testOracles true sSigned "Hash: SHA256"
      (by decide) (by decide)).2.1⟩

/-- C8 counterexample: in the document whose third line equals
`-----BEGIN PGP SIGNED MESSAGE-----` inside an open signature block,
no `signed_format_issue` error is produced at all, although the marker
occurs at a line number other than 1. -/
theorem claim_c8_counterexample :
    ((pySplitLines
        "-----BEGIN PGP SIGNED MESSAGE-----\n-----BEGIN PGP SIGNATURE-----\n-----BEGIN PGP SIGNED MESSAGE-----\n")[2]?
      = some "-----BEGIN PGP SIGNED MESSAGE-----")
  ∧ ∀ e ∈ (runParser testOracles none true
        "-----BEGIN PGP SIGNED MESSAGE-----\n-----BEGIN PGP SIGNATURE-----\n-----BEGIN PGP SIGNED MESSAGE-----\n").errors,
      e.code ≠ "signed_format_issue" := by decide

/-- C8 as amended: a line that right-trims to the
BEGIN-SIGNED-MESSAGE marker and is classified while the parser is
neither inside a signature block nor after a finished signature, at a
line number other than 1, yields a `signed_format_issue` error. -/
theorem claim_c8_signed_marker_not_first (o : Oracles) (ruf : Bool) (content : String)
    (s : PState) (line : String)
    (h1 : s.reading_sig = false) (h2 : s.finished_sig = false)
    (h3 : pyRstrip line = beginMsgMarker) (h4 : s.line_no ≠ some 1) :
    ({ code := "signed_format_issue", message := signedFormatMsg, line := s.line_no } : ErrRec)
      ∈ (parseLine o ruf content s line).1.errors := by
  have hds : strStarts beginMsgMarker "- " = false := by decide
  unfold parseLine
  dsimp only
  rw [if_neg (by simp [h1]), if_neg (by simp [h2]), h3,
      if_neg (show ¬ (s.signed = true ∧ s.reading_sig = false
          ∧ strStarts beginMsgMarker "- " = true) from by simp [hds]),
      if_pos (rfl : beginMsgMarker = beginMsgMarker), if_pos h4]
  cases hp : o.pgpBlob content <;> simp [hp, addError_errors, addErrorAt]

/-- C8 witness: at line 2 of an unsigned context, the marker line
yields `signed_format_issue`. -/
theorem claim_c8_witness :
    ({ code := "signed_format_issue", message := signedFormatMsg,
       line := sSigned.line_no } : ErrRec)
      ∈ (parseLine testOracles true "" sSigned
          "-----BEGIN PGP SIGNED MESSAGE-----").1.errors :=
  claim_c8_signed_marker_not_first testOracles true "" sSigned
    "-----BEGIN PGP SIGNED MESSAGE-----" (by decide) (by decide) (by decide) (by decide)

/-- The final-line block emits `no_line_separators` at the length of
the classification list whenever the last record is not `empty`. -/
theorem validateContents_no_line_separators (urls : Option (List String)) (s : PState)
    (h : s.line_info.getLast?.map (fun r => r.type) ≠ some "empty")
    (hn : s.line_info.length ≠ 0) :
    ({ code := "no_line_separators", message := noLineSepMsg,
       line := some s.line_info.length } : ErrRec) ∈ (validateContents urls s).errors := by
  apply validateContents_errors_from_lastline
  have h2 : (vcCanonicalMatch urls (vcExpires s)).line_info = s.line_info := by simp
  unfold vcLastLine
  rw [h2, if_pos h]
  unfold addErrorAt
  dsimp only
  rw [List.mem_append]
  right
  simp [hn]

/-- C5 counterexample: on the one-line document `"Contact: mailto:a@b"`
the last record is not `empty`, and the `no_line_separators` error is
attributed to line 1 (= the number of input lines), not to line 2
(= the number of input lines plus one) as the claim states. -/
theorem claim_c5_counterexample :
    ((runParser testOracles none true "Contact: mailto:a@b").line_info.getLast?.map
        (fun r => r.type) ≠ some "empty")
  ∧ (pySplitLines "Contact: mailto:a@b").length = 1
  ∧ ({ code := "no_line_separators", message := noLineSepMsg, line := some 1 } : ErrRec)
      ∈ (runParser testOracles none true "Contact: mailto:a@b").errors
  ∧ ∀ e ∈ (runParser testOracles none true "Contact: mailto:a@b").errors,
      e.code = "no_line_separators" → e.line ≠ some 2 := by decide

/-- C5 as amended: for every document whose last LineRecord is not of
kind `empty`, the cross-field pass emits a `no_line_separators` error
whose line number equals the number of input lines (the last line's
own 1-based number), not one past it. -/
theorem claim_c5_no_line_separators (o : Oracles) (urls : Option (List String))
    (ruf : Bool) (content : String)
    (h : ((runParser o urls ruf content).line_info.getLast?.map (fun r => r.type))
        ≠ some "empty") :
    ({ code := "no_line_separators", message := noLineSepMsg,
       line := some (pySplitLines content).length } : ErrRec)
      ∈ (runParser o urls ruf content).errors := by
  have hlen : ({ processLines o ruf content (pySplitLines content) startState
                 with line_no := none } : PState).line_info.length
      = (pySplitLines content).length := by
    simp [processLines_line_info, producedRecs_length, startState, initState]
  unfold runParser at h ⊢
  dsimp only at h ⊢
  rw [validateContents_line_info] at h
  rw [← hlen]
  apply validateContents_no_line_separators
  · exact h
  · rw [hlen]
    exact Nat.pos_iff_ne_zero.mp (pySplitLines_length_pos content)

/-- C5 witness for the amended statement: a one-line document without a
final line feed gets `no_line_separators` at line 1. -/
theorem claim_c5_witness :
    ({ code := "no_line_separators", message := noLineSepMsg,
       line := some (pySplitLines "Contact: x").length } : ErrRec)
      ∈ (runParser testOracles none true "Contact: x").errors :=
  claim_c5_no_line_separators testOracles none true "Contact: x" (by decide)

/-- C4 witness: the empty document records no `expires` value and its
errors contain `no_expire`; a document with two `Expires` lines gets
`multi_expire`. -/
theorem claim_c4_witness :
    (∃ e ∈ (runParser testOracles none true "\n").errors, e.code = "no_expire")
  ∧ (∃ e ∈ (runParser testOracles none true
        "Expires: 2031-01-01T00:00:00Z\nExpires: 2031-01-01T00:00:00Z\n").errors,
      e.code = "multi_expire") :=
  ⟨(claim_c4_expires_cardinality testOracles none true "\n").1 (by decide),
   (claim_c4_expires_cardinality testOracles none true
      "Expires: 2031-01-01T00:00:00Z\nExpires: 2031-01-01T00:00:00Z\n").2 (by decide)⟩

end Sectxt
